import Mathlib

/-!
# Verification of the sentiment-to-action decision engine

Shallow embedding of the decision-engine logic of the repository's three
browser demos (`src/Task2/app.js`, `src/Task3/app.js`, `src/unnamed/part_000`),
together with proofs settling the frozen claims about it.

Modelling conventions:
* JavaScript numbers are modelled as rationals (`ℚ`); every numeric literal in
  the source is an exactly representable decimal, so all comparisons coincide.
* JavaScript strings are Lean `String`s; where the source interpolates a
  number into a condition string, the model carries the number's decimal
  rendering as a `String` field.
* Fallible operations (`throw`/`eval` failures) become `Except`/`Option`.
* Object literals used as lookup tables become total functions with the
  source's `|| 0` (resp. `|| default`) fallback.
-/

namespace Task2

/-- `getNormalizedScore(confidence, label)` from `src/Task2/app.js`
(lines 641–648): POSITIVE keeps the confidence, NEGATIVE inverts it,
anything else gets the 0.5 baseline. -/
def getNormalizedScore (confidence : ℚ) (label : String) : ℚ :=
  if label = "POSITIVE" then confidence
  else if label = "NEGATIVE" then 1 - confidence
  else 0.5

/-- The action code computed by `determineBusinessAction(confidence, label)`
from `src/Task2/app.js` (lines 494–537): normalizes (POSITIVE → confidence,
NEGATIVE → 1 − confidence, else 0.5) and buckets the normalized score with
`<= 0.4` / `< 0.7`.  The model returns the `actionCode` field; the bundled
display metadata (message, color, icon, buttons) is fixed per code and
carries no logic. -/
def determineBusinessAction (confidence : ℚ) (label : String) : String :=
  let normalizedScore : ℚ :=
    if label = "POSITIVE" then confidence
    else if label = "NEGATIVE" then 1 - confidence
    else 0.5
  if normalizedScore ≤ 0.4 then "OFFER_COUPON"
  else if normalizedScore < 0.7 then "REQUEST_FEEDBACK"
  else "ASK_REFERRAL"

/-- `getActionCode(confidence, label)` from `src/Task2/app.js`
(lines 911–916): same three buckets, with the normalization written as
`label === "NEGATIVE" ? 1 - confidence : confidence`. -/
def getActionCode (confidence : ℚ) (label : String) : String :=
  let normalized : ℚ := if label = "NEGATIVE" then 1 - confidence else confidence
  if normalized ≤ 0.4 then "OFFER_COUPON"
  else if normalized < 0.7 then "REQUEST_FEEDBACK"
  else "ASK_REFERRAL"

end Task2

namespace Unnamed

/-- The action code computed by `determineBusinessAction(sentiment)` from
`src/unnamed/part_000` (lines 231–296): a five-way decision matrix on the
destructured `(label, score)` pair.  The model returns the `action` field;
the accompanying message/icon/tone/trigger/recommendation strings are fixed
per branch and carry no logic. -/
def determineBusinessAction (label : String) (score : ℚ) : String :=
  if label = "NEGATIVE" ∧ 0.7 < score then "OFFER_COUPON"
  else if label = "NEGATIVE" ∧ score ≤ 0.7 then "FLAG_FOR_REVIEW"
  else if label = "POSITIVE" ∧ 0.7 < score then "THANK_CUSTOMER"
  else if label = "POSITIVE" ∧ score ≤ 0.7 then "NO_ACTION"
  else if label = "NEUTRAL" then "NO_ACTION"
  else "NO_ACTION"

end Unnamed

/-- Helper: the three-bucket if-chain shared by both Task2 selectors,
characterized by its thresholds. -/
theorem bucket3_cases (n : ℚ) :
    ((if n ≤ (0.4 : ℚ) then ("OFFER_COUPON" : String)
      else if n < 0.7 then "REQUEST_FEEDBACK" else "ASK_REFERRAL")
        = "OFFER_COUPON" ↔ n ≤ 0.4) ∧
    ((if n ≤ (0.4 : ℚ) then ("OFFER_COUPON" : String)
      else if n < 0.7 then "REQUEST_FEEDBACK" else "ASK_REFERRAL")
        = "REQUEST_FEEDBACK" ↔ 0.4 < n ∧ n < 0.7) ∧
    ((if n ≤ (0.4 : ℚ) then ("OFFER_COUPON" : String)
      else if n < 0.7 then "REQUEST_FEEDBACK" else "ASK_REFERRAL")
        = "ASK_REFERRAL" ↔ 0.7 ≤ n) := by
  rcases le_or_lt n 0.4 with h1 | h1
  · rw [if_pos h1]
    refine ⟨by simp [h1], ?_, ?_⟩
    · simp only [String.reduceEq, false_iff]
      rintro ⟨h2, -⟩
      exact absurd h1 (not_le.mpr h2)
    · simp only [String.reduceEq, false_iff, not_le]
      linarith
  · rw [if_neg (not_le.mpr h1)]
    rcases lt_or_le n 0.7 with h2 | h2
    · rw [if_pos h2]
      refine ⟨by simp [not_le.mpr h1], ?_, ?_⟩
      · simp [h1, h2]
      · simp only [String.reduceEq, false_iff, not_le]
        exact h2
    · rw [if_neg (not_lt.mpr h2)]
      refine ⟨?_, ?_, by simp [h2]⟩
      · simp only [String.reduceEq, false_iff, not_le]
        linarith
      · simp only [String.reduceEq, false_iff, not_and, not_lt]
        intro _
        exact h2

/-- C2: for every positivity index `i` in `[0, 1]` and every `(confidence,
label)` input whose normalized score is `i`, the Task2 three-bucket selectors
(`determineBusinessAction`, lines 494–537, and `getActionCode`, lines
911–916) return `OFFER_COUPON` exactly when `i ≤ 0.4`, `REQUEST_FEEDBACK`
exactly when `0.4 < i < 0.7`, and `ASK_REFERRAL` exactly when `i ≥ 0.7`;
in particular the boundaries `i = 0.4` and `i = 0.7` fall in the low and
high buckets respectively. -/
theorem actionSelector3_buckets (i : ℚ) (h0 : 0 ≤ i) (h1 : i ≤ 1) :
    (∀ c label,
      (if label = "POSITIVE" then c
       else if label = "NEGATIVE" then 1 - c else (0.5 : ℚ)) = i →
      ((Task2.determineBusinessAction c label = "OFFER_COUPON" ↔ i ≤ 0.4) ∧
       (Task2.determineBusinessAction c label = "REQUEST_FEEDBACK" ↔
         0.4 < i ∧ i < 0.7) ∧
       (Task2.determineBusinessAction c label = "ASK_REFERRAL" ↔ 0.7 ≤ i))) ∧
    (∀ c label,
      (if label = "NEGATIVE" then 1 - c else c) = i →
      ((Task2.getActionCode c label = "OFFER_COUPON" ↔ i ≤ 0.4) ∧
       (Task2.getActionCode c label = "REQUEST_FEEDBACK" ↔
         0.4 < i ∧ i < 0.7) ∧
       (Task2.getActionCode c label = "ASK_REFERRAL" ↔ 0.7 ≤ i))) := by
  constructor
  · intro c label h
    unfold Task2.determineBusinessAction
    rw [h]
    exact bucket3_cases i
  · intro c label h
    unfold Task2.getActionCode
    rw [h]
    exact bucket3_cases i

/-- Witness for C2: at the two boundary indices, `0.4` (realized by a
POSITIVE review with confidence 0.4) yields `OFFER_COUPON` and `0.7`
(realized by a NEGATIVE review with confidence 0.3) yields `ASK_REFERRAL`. -/
theorem actionSelector3_buckets_witness :
    Task2.determineBusinessAction (0.4 : ℚ) "POSITIVE" = "OFFER_COUPON" ∧
    Task2.getActionCode (0.3 : ℚ) "NEGATIVE" = "ASK_REFERRAL" := by
  constructor
  · exact (((actionSelector3_buckets 0.4 (by norm_num) (by norm_num)).1
      0.4 "POSITIVE" (by norm_num)).1).mpr (by norm_num)
  · exact (((actionSelector3_buckets 0.7 (by norm_num) (by norm_num)).2
      0.3 "NEGATIVE" (by norm_num)).2.2).mpr (by norm_num)

/-- C3: for every confidence `c` in `[0, 1]`, `getNormalizedScore`
(src/Task2/app.js lines 641–648) returns `c` for POSITIVE, `1 - c` for
NEGATIVE, and `0.5` for every other label independently of `c`, and the
result always lies in `[0, 1]`. -/
theorem getNormalizedScore_spec (label : String) (c : ℚ)
    (h0 : 0 ≤ c) (h1 : c ≤ 1) :
    (label = "POSITIVE" → Task2.getNormalizedScore c label = c) ∧
    (label = "NEGATIVE" → Task2.getNormalizedScore c label = 1 - c) ∧
    (label ≠ "POSITIVE" → label ≠ "NEGATIVE" →
      Task2.getNormalizedScore c label = 0.5) ∧
    0 ≤ Task2.getNormalizedScore c label ∧
    Task2.getNormalizedScore c label ≤ 1 := by
  refine ⟨fun h => ?_, fun h => ?_, fun hp hn => ?_, ?_, ?_⟩
  · subst h
    simp [Task2.getNormalizedScore]
  · subst h
    unfold Task2.getNormalizedScore
    rw [if_neg (by decide), if_pos rfl]
  · simp [Task2.getNormalizedScore, hp, hn]
  · unfold Task2.getNormalizedScore
    split_ifs <;> first | linarith | norm_num
  · unfold Task2.getNormalizedScore
    split_ifs <;> first | linarith | norm_num

/-- Witness for C3: a NEUTRAL label with confidence `0.9` still normalizes
to `0.5`. -/
theorem getNormalizedScore_spec_witness :
    Task2.getNormalizedScore (0.9 : ℚ) "NEUTRAL" = 0.5 :=
  (getNormalizedScore_spec "NEUTRAL" 0.9 (by norm_num) (by norm_num)).2.2.1
    (by simp) (by simp)

/-- C5: the five-bucket label-aware selector of `src/unnamed/part_000`
(lines 231–296) returns `OFFER_COUPON` for NEGATIVE with confidence above
0.7, `FLAG_FOR_REVIEW` for NEGATIVE at or below 0.7, `THANK_CUSTOMER` for
POSITIVE above 0.7, `NO_ACTION` for POSITIVE at or below 0.7, `NO_ACTION`
for NEUTRAL, and `NO_ACTION` for any other label. -/
theorem determineBusinessAction5_spec (label : String) (score : ℚ) :
    (label = "NEGATIVE" → 0.7 < score →
      Unnamed.determineBusinessAction label score = "OFFER_COUPON") ∧
    (label = "NEGATIVE" → score ≤ 0.7 →
      Unnamed.determineBusinessAction label score = "FLAG_FOR_REVIEW") ∧
    (label = "POSITIVE" → 0.7 < score →
      Unnamed.determineBusinessAction label score = "THANK_CUSTOMER") ∧
    (label = "POSITIVE" → score ≤ 0.7 →
      Unnamed.determineBusinessAction label score = "NO_ACTION") ∧
    (label = "NEUTRAL" →
      Unnamed.determineBusinessAction label score = "NO_ACTION") ∧
    (label ≠ "NEGATIVE" → label ≠ "POSITIVE" → label ≠ "NEUTRAL" →
      Unnamed.determineBusinessAction label score = "NO_ACTION") := by
  unfold Unnamed.determineBusinessAction
  refine ⟨?_, ?_, ?_, ?_, ?_, ?_⟩
  · intro hl hs
    rw [if_pos ⟨hl, hs⟩]
  · intro hl hs
    rw [if_neg (by rintro ⟨-, h⟩; exact absurd hs (not_le.mpr h)),
      if_pos ⟨hl, hs⟩]
  · intro hl hs
    rw [if_neg (by rintro ⟨h, -⟩; simp [hl] at h),
      if_neg (by rintro ⟨h, -⟩; simp [hl] at h),
      if_pos ⟨hl, hs⟩]
  · intro hl hs
    rw [if_neg (by rintro ⟨h, -⟩; simp [hl] at h),
      if_neg (by rintro ⟨h, -⟩; simp [hl] at h),
      if_neg (by rintro ⟨-, h⟩; exact absurd hs (not_le.mpr h)),
      if_pos ⟨hl, hs⟩]
  · intro hl
    rw [if_neg (by rintro ⟨h, -⟩; simp [hl] at h),
      if_neg (by rintro ⟨h, -⟩; simp [hl] at h),
      if_neg (by rintro ⟨h, -⟩; simp [hl] at h),
      if_neg (by rintro ⟨h, -⟩; simp [hl] at h),
      if_pos hl]
  · intro hneg hpos hneu
    rw [if_neg (by rintro ⟨h, -⟩; exact hneg h),
      if_neg (by rintro ⟨h, -⟩; exact hneg h),
      if_neg (by rintro ⟨h, -⟩; exact hpos h),
      if_neg (by rintro ⟨h, -⟩; exact hpos h),
      if_neg hneu]

/-- Witness for C5: an unknown label (here `UNKNOWN` at confidence 0.95)
falls through to `NO_ACTION`. -/
theorem determineBusinessAction5_spec_witness :
    Unnamed.determineBusinessAction "UNKNOWN" (0.95 : ℚ) = "NO_ACTION" :=
  (determineBusinessAction5_spec "UNKNOWN" 0.95).2.2.2.2.2
    (by simp) (by simp) (by simp)

namespace Task3

/-- `actionCost(action)` from `src/Task3/app.js` (lines 627–638).  The
source looks the action up in an object literal of fixed costs and falls
back to `0` via `costs[action] || 0`; the model renders the literal as a
finite string-keyed table with default `0` (the two `0`-valued entries and
the default coincide, exactly as `|| 0` makes them in the source). -/
def actionCost (action : String) : ℚ :=
  if action = "EMERGENCY_CALL" then 100
  else if action = "OFFER_COUPON" then 25
  else if action = "SUGGEST_UPGRADE" then 10
  else if action = "THANK_AND_CROSSSELL" then 5
  else if action = "THANK_ONLY" then 0
  else if action = "HUMAN_REVIEW" then 15
  else if action = "NO_ACTION" then 0
  else 0

/-- One enriched row of the batch simulation in `runSimulation`
(src/Task3/app.js lines 522–538): the KPI aggregation reads only the
churn score, the executed action and its cost.  The source round-trips
`churn_score` through `toFixed(2)`/`parseFloat`, the identity on the
two-decimal mock values. -/
structure SimRow where
  churn_score : ℚ
  action : String
  cost : ℚ

/-- `BUDGET_LIMIT` from `runSimulation` (src/Task3/app.js line 547). -/
def BUDGET_LIMIT : ℚ := 3500

/-- `totalCost` (src/Task3/app.js line 541): `reduce((a, r) => a + r.cost, 0)`. -/
def totalCost (rows : List SimRow) : ℚ :=
  rows.foldl (fun a r => a + r.cost) 0

/-- `highRisk` (src/Task3/app.js line 542): rows with churn score `>= 0.7`. -/
def highRisk (rows : List SimRow) : List SimRow :=
  rows.filter (fun r => (0.7 : ℚ) ≤ r.churn_score)

/-- `highRiskCovered` (src/Task3/app.js line 543): high-risk rows whose
action is not `NO_ACTION`. -/
def highRiskCovered (rows : List SimRow) : ℕ :=
  ((highRisk rows).filter (fun r => r.action ≠ "NO_ACTION")).length

/-- `coverage` (src/Task3/app.js line 544): covered fraction of the
high-risk rows, `0` when there are none. -/
def coverage (rows : List SimRow) : ℚ :=
  if (highRisk rows).length ≠ 0 then
    (highRiskCovered rows : ℚ) / ((highRisk rows).length : ℚ)
  else 0

/-- `safetyScore` (src/Task3/app.js line 548):
`Math.min(50, (coverage / 0.9) * 50)`. -/
def safetyScore (rows : List SimRow) : ℚ :=
  min 50 ((coverage rows / 0.9) * 50)

/-- `efficiencyScore` (src/Task3/app.js lines 549–552): budget bonus, `0`
when over budget. -/
def efficiencyScore (rows : List SimRow) : ℚ :=
  if totalCost rows ≤ BUDGET_LIMIT then
    30 + (20 * (1 - (totalCost rows / BUDGET_LIMIT)))
  else 0

/-- `penalty` (src/Task3/app.js lines 554–557): `0.1` per unit over budget. -/
def penalty (rows : List SimRow) : ℚ :=
  if BUDGET_LIMIT < totalCost rows then (totalCost rows - BUDGET_LIMIT) * 0.1
  else 0

/-- `finalScore` (src/Task3/app.js line 559):
`Math.max(0, Math.round(safetyScore + efficiencyScore - penalty))`.
`Math.round` rounds half toward `+∞`, as does Mathlib's `round`. -/
def finalScore (rows : List SimRow) : ℤ :=
  max 0 (round (safetyScore rows + efficiencyScore rows - penalty rows))

end Task3

/-- Helper: every cost in the `actionCost` table is non-negative. -/
theorem actionCost_nonneg (a : String) : 0 ≤ Task3.actionCost a := by
  unfold Task3.actionCost
  split_ifs <;> norm_num

/-- C10: `actionCost` is total and non-negative — it returns the fixed
table value for the seven listed codes, `0` for any code outside the
table, and consequently every batch's total cost (a sum of `actionCost`
values) is non-negative. -/
theorem actionCost_table_spec :
    Task3.actionCost "EMERGENCY_CALL" = 100 ∧
    Task3.actionCost "OFFER_COUPON" = 25 ∧
    Task3.actionCost "SUGGEST_UPGRADE" = 10 ∧
    Task3.actionCost "THANK_AND_CROSSSELL" = 5 ∧
    Task3.actionCost "HUMAN_REVIEW" = 15 ∧
    Task3.actionCost "THANK_ONLY" = 0 ∧
    Task3.actionCost "NO_ACTION" = 0 ∧
    (∀ a : String,
      a ∉ (["EMERGENCY_CALL", "OFFER_COUPON", "SUGGEST_UPGRADE",
            "THANK_AND_CROSSSELL", "THANK_ONLY", "HUMAN_REVIEW",
            "NO_ACTION"] : List String) →
      Task3.actionCost a = 0) ∧
    (∀ a : String, 0 ≤ Task3.actionCost a) ∧
    (∀ actions : List String, 0 ≤ (actions.map Task3.actionCost).sum) := by
  refine ⟨by decide, by decide, by decide, by decide, by decide, by decide,
    by decide, ?_, actionCost_nonneg, ?_⟩
  · intro a ha
    unfold Task3.actionCost
    split_ifs <;> first | rfl | (subst_vars; simp at ha)
  · intro actions
    induction actions with
    | nil => simp
    | cons a t ih =>
      simp only [List.map_cons, List.sum_cons]
      have := actionCost_nonneg a
      linarith

/-- Witness for C10: an action code outside the table costs `0`, and a
small concrete batch has non-negative total cost. -/
theorem actionCost_table_spec_witness :
    Task3.actionCost "SOME_UNKNOWN_CODE" = 0 ∧
    0 ≤ ((["EMERGENCY_CALL", "NO_ACTION"] : List String).map
          Task3.actionCost).sum := by
  constructor
  · exact actionCost_table_spec.2.2.2.2.2.2.2.1 "SOME_UNKNOWN_CODE" (by simp)
  · exact actionCost_table_spec.2.2.2.2.2.2.2.2.2
      ["EMERGENCY_CALL", "NO_ACTION"]

/-- C6: for every batch of simulated rows, the policy score computed by
`runSimulation` (src/Task3/app.js lines 541–559) equals
`max(0, round(safety + efficiency − penalty))` with
`safety = min(50, (coverage / 0.9) * 50)`,
`efficiency = 30 + 20 * (1 − totalCost / 3500)` when `totalCost ≤ 3500`
and `0` otherwise, and `penalty = 0.1 * (totalCost − 3500)` when the total
cost exceeds the budget; `coverage` is the fraction of rows with churn
score `≥ 0.7` whose action is not `NO_ACTION`; and the final score is
always `≥ 0`. -/
theorem runSimulation_policy_score (rows : List Task3.SimRow) :
    Task3.finalScore rows =
      max 0 (round
        (min 50 ((Task3.coverage rows / (0.9 : ℚ)) * 50) +
          (if Task3.totalCost rows ≤ 3500 then
            30 + 20 * (1 - Task3.totalCost rows / 3500)
           else 0) -
          (if 3500 < Task3.totalCost rows then
            (Task3.totalCost rows - 3500) * 0.1
           else 0))) ∧
    Task3.coverage rows =
      (if (Task3.highRisk rows).length ≠ 0 then
        ((((Task3.highRisk rows).filter
            (fun r => r.action ≠ "NO_ACTION")).length : ℚ)
          / ((Task3.highRisk rows).length : ℚ))
       else 0) ∧
    0 ≤ Task3.finalScore rows := by
  refine ⟨?_, rfl, le_max_left 0 _⟩
  unfold Task3.finalScore Task3.safetyScore Task3.efficiencyScore
    Task3.penalty Task3.BUDGET_LIMIT
  norm_num

namespace Task3

/-! ## The rule interpreter (src/Task3/app.js lines 173–230)

The interpreter's conditions are JavaScript expression strings: `executeRules`
textually substitutes the record's field values into the condition (five
global `String.replace` calls) and feeds the result to `eval`, treating any
exception as "rule does not match".  The embedding models the relevant
fragment of `eval`: string/number literals, the comparison operators
`==  !=  ===  !==  <  <=  >  >=`, and `&&`/`||` with JavaScript's
truthiness and coercion rules.  Anything outside this fragment — in
particular a bare identifier such as the rule language's `AND`, which is
not a JavaScript operator — evaluates to `none`, exactly as `eval` throws
on it.  JavaScript numbers interpolated by the substitution are carried as
their decimal renderings (`String` fields of `RuleData`). -/

/-- A parsed business rule (`parseRules`, src/Task3/app.js lines 187–198). -/
inductive Rule where
  | conditional (condition : String) (result : String)
  | fallback (result : String)
deriving DecidableEq, Repr

/-- The record fields read by `executeRules` (src/Task3/app.js lines
213–218).  Numeric fields hold the decimal rendering the substitution
interpolates; `none` models an absent (`undefined`) field, which the
source's `|| 0` (resp. `|| "OTHER"`) replaces by its default. -/
structure RuleData where
  sentiment : String
  confidence : String
  churn_score : Option String := none
  monthly_charges : Option String := none
  segment : Option String := none

/-- The ASCII whitespace matched by JavaScript's `\s` (the source contains
no exotic Unicode whitespace). -/
def isJsSpace (c : Char) : Bool :=
  c = ' ' ∨ c = '\t' ∨ c = '\n' ∨ c = '\r' ∨ c = '\x0b' ∨ c = '\x0c'

/-- `String.prototype.trim` on a line of rule text. -/
def trimChars (cs : List Char) : List Char :=
  ((cs.dropWhile isJsSpace).reverse.dropWhile isJsSpace).reverse

/-- `instructionText.split("\n")` (src/Task3/app.js line 174). -/
def splitOnNewline : List Char → List (List Char)
  | [] => [[]]
  | c :: rest =>
    let r := splitOnNewline rest
    if c = '\n' then [] :: r
    else
      match r with
      | [] => [[c]]
      | h :: t => (c :: h) :: t

/-- Case-insensitive keyword consumption (the `/i` regex flag). -/
def dropKeywordCI : List Char → List Char → Option (List Char)
  | [], cs => some cs
  | _ :: _, [] => none
  | k :: ks, c :: cs => if k.toLower = c.toLower then dropKeywordCI ks cs else none

/-- `\s+`: at least one whitespace character, consumed greedily. -/
def dropSpacesPlus : List Char → Option (List Char)
  | [] => none
  | c :: cs => if isJsSpace c then some (cs.dropWhile isJsSpace) else none

/-- A character of the action-code class `[A-Z_]` under the `/i` flag. -/
def isActionChar (c : Char) : Bool :=
  ('A' ≤ c ∧ c ≤ 'Z') ∨ ('a' ≤ c ∧ c ≤ 'z') ∨ c = '_'

/-- The regex tail `"?([A-Z_]+)"?$`: an optional quote, the captured action
code, an optional quote, end of line. -/
def matchActionTail (cs : List Char) : Option (List Char) :=
  let cs1 := match cs with
    | '"' :: r => r
    | _ => cs
  let letters := cs1.takeWhile isActionChar
  match cs1.dropWhile isActionChar with
  | [] => if letters.isEmpty then none else some letters
  | ['"'] => if letters.isEmpty then none else some letters
  | _ => none

/-- The regex tail `\s+THEN\s+RETURN\s+"?([A-Z_]+)"?$` after a candidate
condition. -/
def matchThenTail (cs : List Char) : Option (List Char) := do
  let r1 ← dropSpacesPlus cs
  let r2 ← dropKeywordCI "THEN".toList r1
  let r3 ← dropSpacesPlus r2
  let r4 ← dropKeywordCI "RETURN".toList r3
  let r5 ← dropSpacesPlus r4
  matchActionTail r5

/-- The lazy group `(.+?)`: the shortest non-empty condition prefix after
which the `THEN RETURN` tail matches. -/
def findCondSplit : List Char → List Char → Option (List Char × List Char)
  | [], _ => none
  | c :: rest, acc =>
    match matchThenTail rest with
    | some act => some (acc ++ [c], act)
    | none => findCondSplit rest (acc ++ [c])

/-- The rule regex `^IF\s+(.+?)\s+THEN\s+RETURN\s+"?([A-Z_]+)"?$/i`
(src/Task3/app.js line 184), returning the captured condition and action. -/
def matchIfRule (line : List Char) : Option (List Char × List Char) := do
  let r1 ← dropKeywordCI "IF".toList line
  let r2 ← dropSpacesPlus r1
  findCondSplit r2 []

/-- The fallback regex `^RETURN\s+"?([A-Z_]+)"?$/i` (src/Task3/app.js
line 185), returning the captured action. -/
def matchReturnRule (line : List Char) : Option (List Char) := do
  let r1 ← dropKeywordCI "RETURN".toList line
  let r2 ← dropSpacesPlus r1
  matchActionTail r2

/-- The scanning loop of `parseRules` (src/Task3/app.js lines 179–199):
skip blank and `//` lines, stop at the next `[...]` section header, turn
regex matches into rules (action codes upper-cased), ignore lines matching
neither regex. -/
def parseRulesLines : List (List Char) → List Rule
  | [] => []
  | l :: rest =>
    let line := trimChars l
    if line.isEmpty ∨ line.take 2 = ['/', '/'] then parseRulesLines rest
    else if line.take 1 = ['['] then []
    else
      match matchIfRule line with
      | some (cond, act) =>
        Rule.conditional (String.mk cond) (String.mk (act.map Char.toUpper)) ::
          parseRulesLines rest
      | none =>
        match matchReturnRule line with
        | some act =>
          Rule.fallback (String.mk (act.map Char.toUpper)) :: parseRulesLines rest
        | none => parseRulesLines rest

/-- The header search of `parseRules` (src/Task3/app.js lines 175–176):
`lines.findIndex(x => x.trim() === "[RULES]")`, returned as the lines after
the first matching one (`-1`, i.e. no match, is `none`). -/
def linesAfterHeader : List (List Char) → Option (List (List Char))
  | [] => none
  | l :: rest =>
    if trimChars l = "[RULES]".toList then some rest
    else linesAfterHeader rest

/-- `parseRules(instructionText)` (src/Task3/app.js lines 173–201): split
into lines, find the first line trimming to `[RULES]`, scan the following
lines; no `[RULES]` line means no rules. -/
def parseRules (instructionText : String) : List Rule :=
  match linesAfterHeader (splitOnNewline instructionText.toList) with
  | none => []
  | some rest => parseRulesLines rest

/-- `String.replace(/pat/g, rep)`: replace every non-overlapping occurrence
left to right, not rescanning the replacement.  Fuel-indexed (the fuel is
the input length, which bounds the number of steps). -/
def replaceAllAux (pat rep : List Char) : Nat → List Char → List Char
  | 0, cs => cs
  | _ + 1, [] => []
  | fuel + 1, c :: rest =>
    if pat.isPrefixOf (c :: rest) then
      rep ++ replaceAllAux pat rep fuel ((c :: rest).drop pat.length)
    else
      c :: replaceAllAux pat rep fuel rest

/-- `String.replace(/pat/g, rep)` for a non-empty pattern. -/
def replaceAll (pat rep cs : List Char) : List Char :=
  if pat.isEmpty then cs else replaceAllAux pat rep cs.length cs

/-- The five substitutions of `executeRules` (src/Task3/app.js lines
213–218), in source order: `sentiment` and `segment` are interpolated in
quotes, the numeric fields as their decimal renderings with `|| 0`
defaults, `segment` with an `|| "OTHER"` default. -/
def substituteFields (data : RuleData) (cond : List Char) : List Char :=
  let s1 := replaceAll "sentiment".toList
    ('"' :: data.sentiment.toList ++ ['"']) cond
  let s2 := replaceAll "confidence".toList data.confidence.toList s1
  let s3 := replaceAll "churn_score".toList
    (data.churn_score.getD "0").toList s2
  let s4 := replaceAll "monthly_charges".toList
    (data.monthly_charges.getD "0").toList s3
  replaceAll "segment".toList
    ('"' :: (data.segment.getD "OTHER").toList ++ ['"']) s4

/-! ### The `eval` fragment -/

/-- A JavaScript number of the fragment: the decimal numerals produced by
the substitution and the rule text, represented exactly as
`mant / 10 ^ scale`.  (Every such value is also exactly representable in
the comparisons JavaScript performs on them.) -/
structure JsNum where
  mant : Int
  scale : Nat
deriving DecidableEq, Repr

/-- The rational value of a `JsNum`. -/
def JsNum.toRat (n : JsNum) : ℚ := (n.mant : ℚ) / 10 ^ n.scale

/-- Numeric equality on `JsNum` by cross-multiplication. -/
def JsNum.beq (a b : JsNum) : Bool :=
  a.mant * 10 ^ b.scale = b.mant * 10 ^ a.scale

/-- Numeric strict order on `JsNum` by cross-multiplication. -/
def JsNum.blt (a b : JsNum) : Bool :=
  a.mant * 10 ^ b.scale < b.mant * 10 ^ a.scale

/-- Numeric non-strict order on `JsNum` by cross-multiplication. -/
def JsNum.ble (a b : JsNum) : Bool :=
  a.mant * 10 ^ b.scale ≤ b.mant * 10 ^ a.scale

/-- `JsNum.beq` decides equality of the rational values. -/
theorem JsNum.beq_iff (a b : JsNum) : a.beq b = true ↔ a.toRat = b.toRat := by
  unfold JsNum.beq JsNum.toRat
  simp only [decide_eq_true_eq]
  rw [div_eq_div_iff (by positivity) (by positivity)]
  constructor <;> intro h <;> exact_mod_cast h

/-- `JsNum.blt` decides strict order of the rational values. -/
theorem JsNum.blt_iff (a b : JsNum) : a.blt b = true ↔ a.toRat < b.toRat := by
  unfold JsNum.blt JsNum.toRat
  simp only [decide_eq_true_eq]
  rw [div_lt_div_iff (by positivity) (by positivity)]
  constructor <;> intro h <;> exact_mod_cast h

/-- `JsNum.ble` decides non-strict order of the rational values. -/
theorem JsNum.ble_iff (a b : JsNum) : a.ble b = true ↔ a.toRat ≤ b.toRat := by
  unfold JsNum.ble JsNum.toRat
  simp only [decide_eq_true_eq]
  rw [div_le_div_iff (by positivity) (by positivity)]
  constructor <;> intro h <;> exact_mod_cast h

/-- The numeric value of a boolean under JavaScript coercion. -/
def JsNum.ofBool (b : Bool) : JsNum := if b then ⟨1, 0⟩ else ⟨0, 0⟩

/-- A JavaScript value arising from evaluating a substituted condition. -/
inductive JsVal where
  | num (n : JsNum)
  | str (s : String)
  | bool (b : Bool)
deriving DecidableEq, Repr

/-- A token of the substituted condition text. -/
inductive Tok where
  | num (n : JsNum)
  | str (s : String)
  | ident (s : String)
  | op (s : String)
deriving DecidableEq, Repr

/-- The numeric value of a digit run. -/
def digitsToNat (ds : List Char) : Nat :=
  ds.foldl (fun a c => 10 * a + (c.toNat - 48)) 0

/-- A decimal number literal `123` or `123.45` starting the input;
returns its value and the rest. -/
def parseNumToken (cs : List Char) : JsNum × List Char :=
  let intPart := cs.takeWhile Char.isDigit
  match cs.dropWhile Char.isDigit with
  | '.' :: rest2 =>
    let frac := rest2.takeWhile Char.isDigit
    (⟨(digitsToNat (intPart ++ frac) : Int), frac.length⟩,
      rest2.dropWhile Char.isDigit)
  | rest1 => (⟨(digitsToNat intPart : Int), 0⟩, rest1)

/-- A JavaScript identifier character. -/
def isIdentChar (c : Char) : Bool := c.isAlphanum ∨ c = '_' ∨ c = '$'

/-- A JavaScript identifier start character. -/
def isIdentStart (c : Char) : Bool := c.isAlpha ∨ c = '_' ∨ c = '$'

/-- The operator token starting the input, longest match first. -/
def opToken : List Char → Option (String × List Char)
  | '=' :: '=' :: '=' :: r => some ("===", r)
  | '=' :: '=' :: r => some ("==", r)
  | '!' :: '=' :: '=' :: r => some ("!==", r)
  | '!' :: '=' :: r => some ("!=", r)
  | '<' :: '=' :: r => some ("<=", r)
  | '<' :: r => some ("<", r)
  | '>' :: '=' :: r => some (">=", r)
  | '>' :: r => some (">", r)
  | '&' :: '&' :: r => some ("&&", r)
  | '|' :: '|' :: r => some ("||", r)
  | _ => none

/-- Tokenizer for the `eval` fragment; `none` models a `SyntaxError` (an
unterminated string literal or a character outside the fragment).
Fuel-indexed (each step consumes at least one character). -/
def tokenizeAux : Nat → List Char → Option (List Tok)
  | _, [] => some []
  | 0, _ :: _ => none
  | fuel + 1, c :: rest =>
    if isJsSpace c then tokenizeAux fuel rest
    else if c.isDigit then
      let (n, rest2) := parseNumToken (c :: rest)
      (tokenizeAux fuel rest2).map (Tok.num n :: ·)
    else if c = '"' then
      let content := rest.takeWhile (fun d => d ≠ '"')
      match rest.dropWhile (fun d => d ≠ '"') with
      | '"' :: rest2 =>
        (tokenizeAux fuel rest2).map (Tok.str (String.mk content) :: ·)
      | _ => none
    else if isIdentStart c then
      let idChars := (c :: rest).takeWhile isIdentChar
      (tokenizeAux fuel ((c :: rest).dropWhile isIdentChar)).map
        (Tok.ident (String.mk idChars) :: ·)
    else
      match opToken (c :: rest) with
      | some (o, rest2) => (tokenizeAux fuel rest2).map (Tok.op o :: ·)
      | none => none

/-- Tokenize a substituted condition. -/
def tokenize (cs : List Char) : Option (List Tok) :=
  tokenizeAux (cs.length + 1) cs

/-- JavaScript `ToNumber` on a string (the decimal fragment): whitespace
trims away, the empty string is `0`, an optional sign precedes a decimal
numeral; anything else is `NaN` (`none`). -/
def jsStringToNum (s : String) : Option JsNum :=
  let cs := trimChars s.toList
  if cs.isEmpty then some ⟨0, 0⟩
  else
    let signAndRest : Int × List Char := match cs with
      | '-' :: r => (-1, r)
      | '+' :: r => (1, r)
      | _ => (1, cs)
    match signAndRest.2 with
    | [] => none
    | c :: _ =>
      if c.isDigit then
        match parseNumToken signAndRest.2 with
        | (n, []) => some ⟨signAndRest.1 * n.mant, n.scale⟩
        | _ => none
      else none

/-- JavaScript `ToNumber` on a value (`NaN` is `none`). -/
def toNum : JsVal → Option JsNum
  | .num n => some n
  | .bool b => some (JsNum.ofBool b)
  | .str s => jsStringToNum s

/-- JavaScript truthiness of a value (a number is truthy iff nonzero). -/
def truthy : JsVal → Bool
  | .num n => n.mant ≠ 0
  | .str s => s ≠ ""
  | .bool b => b

/-- JavaScript loose equality `==` on the value fragment: same-type
comparison, otherwise numeric coercion with `NaN` never equal. -/
def looseEq : JsVal → JsVal → Bool
  | .num x, .num y => x.beq y
  | .str x, .str y => x = y
  | .bool x, .bool y => x = y
  | .num x, .str s => (jsStringToNum s).elim false (fun y => x.beq y)
  | .str s, .num y => (jsStringToNum s).elim false (fun x => x.beq y)
  | .bool x, .num y => (JsNum.ofBool x).beq y
  | .num x, .bool y => x.beq (JsNum.ofBool y)
  | .bool x, .str s => (jsStringToNum s).elim false (fun y => (JsNum.ofBool x).beq y)
  | .str s, .bool y => (jsStringToNum s).elim false (fun x => x.beq (JsNum.ofBool y))

/-- JavaScript strict equality `===` (numbers compare by value, different
types are never strictly equal). -/
def strictEq : JsVal → JsVal → Bool
  | .num x, .num y => x.beq y
  | .str x, .str y => x = y
  | .bool x, .bool y => x = y
  | _, _ => false

/-- A JavaScript relational comparison: lexicographic when both operands
are strings, otherwise numeric with `NaN` comparisons false. -/
def relCmp (fnum : JsNum → JsNum → Bool) (fstr : String → String → Bool) :
    JsVal → JsVal → Bool
  | .str x, .str y => fstr x y
  | a, b =>
    match toNum a, toNum b with
    | some x, some y => fnum x y
    | _, _ => false

/-- Apply a binary comparison operator token to two values. -/
def applyOp (o : String) (a b : JsVal) : Option JsVal :=
  if o = "==" then some (.bool (looseEq a b))
  else if o = "!=" then some (.bool (!looseEq a b))
  else if o = "===" then some (.bool (strictEq a b))
  else if o = "!==" then some (.bool (!strictEq a b))
  else if o = "<" then
    some (.bool (relCmp JsNum.blt (fun x y => decide (x < y)) a b))
  else if o = "<=" then
    some (.bool (relCmp JsNum.ble (fun x y => decide (x ≤ y)) a b))
  else if o = ">" then
    some (.bool (relCmp (fun x y => y.blt x) (fun x y => decide (y < x)) a b))
  else if o = ">=" then
    some (.bool (relCmp (fun x y => y.ble x) (fun x y => decide (y ≤ x)) a b))
  else none

/-- A primary expression of the fragment: a literal.  A bare identifier is
not a value (in `eval` it is an unbound name or a stray keyword — an
error), so it is rejected here. -/
def parsePrimary : List Tok → Option (JsVal × List Tok)
  | Tok.num n :: r => some (.num n, r)
  | Tok.str s :: r => some (.str s, r)
  | _ => none

/-- Whether a token is one of the supported comparison operators. -/
def isCmpOpName (o : String) : Bool :=
  o = "==" ∨ o = "!=" ∨ o = "===" ∨ o = "!==" ∨
  o = "<" ∨ o = "<=" ∨ o = ">" ∨ o = ">="

/-- A comparison: a primary optionally followed by one comparison operator
and a second primary (rule conditions never chain comparisons). -/
def parseComparison (ts : List Tok) : Option (JsVal × List Tok) := do
  let (a, r1) ← parsePrimary ts
  match r1 with
  | Tok.op o :: r2 =>
    if isCmpOpName o then do
      let (b, r3) ← parsePrimary r2
      let v ← applyOp o a b
      pure (v, r3)
    else pure (a, r1)
  | _ => pure (a, r1)

/-- JavaScript `&&` on values (no side effects, so short-circuiting is
value-level). -/
def jsAnd (a b : JsVal) : JsVal := if truthy a then b else a

/-- JavaScript `||` on values. -/
def jsOr (a b : JsVal) : JsVal := if truthy a then a else b

/-- A chain of `&&`-connected comparisons.  Parsed right-recursively; for
`&&` the left- and right-associated values coincide. -/
def parseAndChain : Nat → List Tok → Option (JsVal × List Tok)
  | 0, _ => none
  | fuel + 1, ts => do
    let (a, r1) ← parseComparison ts
    match r1 with
    | Tok.op "&&" :: r2 => do
      let (b, r3) ← parseAndChain fuel r2
      pure (jsAnd a b, r3)
    | _ => pure (a, r1)

/-- A chain of `||`-connected `&&`-chains (`&&` binds tighter). -/
def parseOrChain : Nat → List Tok → Option (JsVal × List Tok)
  | 0, _ => none
  | fuel + 1, ts => do
    let (a, r1) ← parseAndChain (ts.length + 1) ts
    match r1 with
    | Tok.op "||" :: r2 => do
      let (b, r3) ← parseOrChain fuel r2
      pure (jsOr a b, r3)
    | _ => pure (a, r1)

/-- Evaluate a token list as one full expression; leftover tokens (e.g. a
stray `AND` identifier after a complete comparison) are a `SyntaxError`,
hence `none`. -/
def evalToksExpr (ts : List Tok) : Option JsVal := do
  let (v, rest) ← parseOrChain (ts.length + 1) ts
  match rest with
  | [] => pure v
  | _ :: _ => none

/-- `eval` of a substituted condition string: `none` models a thrown
exception (and the empty expression, which `eval` maps to the falsy
`undefined` — indistinguishable from an exception for `executeRules`,
which treats both as "no match"). -/
def evalJsCondition (cs : List Char) : Option JsVal := do
  let ts ← tokenize cs
  evalToksExpr ts

/-- Substitute the record into a rule's condition and evaluate it
(src/Task3/app.js lines 213–226). -/
def evalCondition (data : RuleData) (condition : String) : Option JsVal :=
  evalJsCondition (substituteFields data condition.toList)

/-- `executeRules(data, rules)` (src/Task3/app.js lines 206–230): first
fallback wins; a conditional rule fires when its substituted condition
evaluates to a truthy value; an evaluation error skips the rule; an
exhausted list yields `NO_ACTION`. -/
def executeRules (data : RuleData) : List Rule → String
  | [] => "NO_ACTION"
  | Rule.fallback result :: _ => result
  | Rule.conditional condition result :: rest =>
    match evalCondition data condition with
    | some v => if truthy v then result else executeRules data rest
    | none => executeRules data rest

/-- Whether a rule is a fallback (vocabulary for the truncation claim). -/
def isFallbackRule : Rule → Bool
  | .fallback _ => true
  | .conditional _ _ => false

/-- The prefix of a rule list up to and including its first fallback (the
whole list when there is none). -/
def upToFirstFallback : List Rule → List Rule
  | [] => []
  | Rule.fallback r :: _ => [Rule.fallback r]
  | r :: rest => r :: upToFirstFallback rest

end Task3

/-- The three-line rule list of the boundary scenario: two `AND`
conditionals and a fallback, preceded by the `[RULES]` section header that
`parseRules` scans for. -/
def c1RuleText : String :=
  "[RULES]\nIF sentiment == \"NEGATIVE\" AND confidence >= 0.8 THEN RETURN \"EMERGENCY_CALL\"\nIF sentiment == \"NEGATIVE\" AND confidence >= 0.6 THEN RETURN \"OFFER_COUPON\"\nRETURN \"THANK_ONLY\""

set_option maxRecDepth 8000 in
/-- C1 (refuting the claimed outputs, which match the source's own
documentation): the three lines parse exactly as expected, but
`executeRules` returns `THANK_ONLY` for all three records — including
`{sentiment: "NEGATIVE", confidence: 0.85}`, where the claim (and the
source's `[MERMAID]` flowchart and rule comments) says `EMERGENCY_CALL` —
because `AND` is not a JavaScript operator: `eval` of every substituted
`AND` condition throws a `SyntaxError` (the `none` conjunct), the `catch`
swallows it, the rule is skipped, and only the fallback remains.  The
final conjunct shows the same condition written with JavaScript's `&&`
does evaluate to true. -/
theorem executeRules_demoRules_fall_through :
    Task3.parseRules c1RuleText =
      [Task3.Rule.conditional
        "sentiment == \"NEGATIVE\" AND confidence >= 0.8" "EMERGENCY_CALL",
       Task3.Rule.conditional
        "sentiment == \"NEGATIVE\" AND confidence >= 0.6" "OFFER_COUPON",
       Task3.Rule.fallback "THANK_ONLY"] ∧
    Task3.executeRules ⟨"NEGATIVE", "0.85", none, none, none⟩
      (Task3.parseRules c1RuleText) = "THANK_ONLY" ∧
    Task3.executeRules ⟨"NEGATIVE", "0.65", none, none, none⟩
      (Task3.parseRules c1RuleText) = "THANK_ONLY" ∧
    Task3.executeRules ⟨"NEGATIVE", "0.3", none, none, none⟩
      (Task3.parseRules c1RuleText) = "THANK_ONLY" ∧
    Task3.evalCondition ⟨"NEGATIVE", "0.85", none, none, none⟩
      "sentiment == \"NEGATIVE\" AND confidence >= 0.8" = none ∧
    Task3.evalCondition ⟨"NEGATIVE", "0.85", none, none, none⟩
      "sentiment == \"NEGATIVE\" && confidence >= 0.8" =
      some (Task3.JsVal.bool true) := by
  decide

/-- C4: a conditional rule whose condition fails to parse or evaluate is
skipped — with a fallback next, `executeRules` returns the fallback's
action, and in general evaluation just proceeds to the next rule.  The
model is a total function, so no exception can escape (the source wraps
`eval` in `try`/`catch`, so `executeRules` never throws). -/
theorem executeRules_skips_malformed (data : Task3.RuleData)
    (c res f : String) (rest : List Task3.Rule)
    (h : Task3.evalCondition data c = none) :
    Task3.executeRules data
      (Task3.Rule.conditional c res :: Task3.Rule.fallback f :: rest) = f ∧
    Task3.executeRules data (Task3.Rule.conditional c res :: rest) =
      Task3.executeRules data rest := by
  constructor <;> simp [Task3.executeRules, h]

/-- Witness for C4: the malformed condition `confidence >= >= 0.6` fails to
evaluate, and the two-rule list still returns the fallback's action. -/
theorem executeRules_skips_malformed_witness :
    Task3.evalCondition ⟨"POSITIVE", "0.9", none, none, none⟩
      "confidence >= >= 0.6" = none ∧
    Task3.executeRules ⟨"POSITIVE", "0.9", none, none, none⟩
      [Task3.Rule.conditional "confidence >= >= 0.6" "OFFER_COUPON",
       Task3.Rule.fallback "THANK_ONLY"] = "THANK_ONLY" :=
  ⟨by decide,
   (executeRules_skips_malformed ⟨"POSITIVE", "0.9", none, none, none⟩
      "confidence >= >= 0.6" "OFFER_COUPON" "THANK_ONLY" [] (by decide)).1⟩

/-- C8: `executeRules` returns at the first fallback it reaches, so for any
record and any rule list containing a fallback, truncating the list just
after its first fallback does not change the result — rules after the
first fallback never affect the output. -/
theorem executeRules_stops_at_first_fallback (data : Task3.RuleData)
    (rules : List Task3.Rule)
    (h : rules.any Task3.isFallbackRule = true) :
    Task3.executeRules data (Task3.upToFirstFallback rules) =
      Task3.executeRules data rules := by
  induction rules with
  | nil => simp at h
  | cons r rest ih =>
    cases r with
    | fallback result =>
      simp [Task3.upToFirstFallback, Task3.executeRules]
    | conditional c res =>
      have h' : rest.any Task3.isFallbackRule = true := by
        simpa [Task3.isFallbackRule] using h
      simp only [Task3.upToFirstFallback, Task3.executeRules]
      cases hv : Task3.evalCondition data c with
      | none => simpa using ih h'
      | some v =>
        by_cases ht : Task3.truthy v = true
        · simp [ht]
        · simp [ht, ih h']

/-- Witness for C8: a rule list with a conditional, a fallback, and a rule
after the fallback gives the same answer truncated or not. -/
theorem executeRules_stops_at_first_fallback_witness :
    Task3.executeRules ⟨"POSITIVE", "0.9", none, none, none⟩
      (Task3.upToFirstFallback
        [Task3.Rule.conditional "confidence >= 0.95" "EMERGENCY_CALL",
         Task3.Rule.fallback "THANK_ONLY",
         Task3.Rule.conditional "confidence >= 0" "OFFER_COUPON"]) =
    Task3.executeRules ⟨"POSITIVE", "0.9", none, none, none⟩
      [Task3.Rule.conditional "confidence >= 0.95" "EMERGENCY_CALL",
       Task3.Rule.fallback "THANK_ONLY",
       Task3.Rule.conditional "confidence >= 0" "OFFER_COUPON"] :=
  executeRules_stops_at_first_fallback ⟨"POSITIVE", "0.9", none, none, none⟩
    [Task3.Rule.conditional "confidence >= 0.95" "EMERGENCY_CALL",
     Task3.Rule.fallback "THANK_ONLY",
     Task3.Rule.conditional "confidence >= 0" "OFFER_COUPON"] (by decide)

/-- Helper: the header search fails on a list with no line trimming to
`[RULES]`. -/
theorem linesAfterHeader_eq_none (ls : List (List Char))
    (h : ∀ cs ∈ ls, Task3.trimChars cs ≠ "[RULES]".toList) :
    Task3.linesAfterHeader ls = none := by
  induction ls with
  | nil => rfl
  | cons l rest ih =>
    unfold Task3.linesAfterHeader
    rw [if_neg (h l (List.mem_cons_self l rest))]
    exact ih (fun cs hcs => h cs (List.mem_cons_of_mem l hcs))

/-- C9: when no line of the instruction text trims to exactly `[RULES]`,
`parseRules` returns the empty rule list, and `executeRules` on the empty
list returns `NO_ACTION` for every record. -/
theorem parseRules_without_rules_header (text : String)
    (h : ∀ cs ∈ Task3.splitOnNewline text.toList,
      Task3.trimChars cs ≠ "[RULES]".toList) :
    Task3.parseRules text = [] ∧
    ∀ data : Task3.RuleData, Task3.executeRules data [] = "NO_ACTION" := by
  refine ⟨?_, fun data => rfl⟩
  unfold Task3.parseRules
  rw [linesAfterHeader_eq_none (Task3.splitOnNewline text.toList) h]

/-- Witness for C9: a two-line text without a `[RULES]` header parses to no
rules, and the empty rule list yields `NO_ACTION`. -/
theorem parseRules_without_rules_header_witness :
    Task3.parseRules "hello\nworld" = [] ∧
    Task3.executeRules ⟨"NEGATIVE", "0.85", none, none, none⟩ [] =
      "NO_ACTION" :=
  ⟨(parseRules_without_rules_header "hello\nworld" (by decide)).1,
   (parseRules_without_rules_header "hello\nworld" (by decide)).2
     ⟨"NEGATIVE", "0.85", none, none, none⟩⟩

namespace Task3

/-! ## The classifier boundary (src/Task3/app.js lines 327–366)

`analyzeSentiment` throws on a response that is not a non-empty array and
otherwise wraps it as `[output]`; `extractSentimentData` then digs out
`result[0][0]` and falls back to `NEUTRAL` / `0.5` for any field that is
missing or of the wrong type.  The response shape is modelled by a small
JSON-value type whose object form carries exactly the two fields the code
reads. -/

/-- A classifier response value: `jobj lab sc` is an object whose `label`
and `score` properties are `lab` and `sc` (`none` = absent/`undefined`);
other property names are never read.  `jnull` stands for `null` and the
other non-object primitives the checks reject. -/
inductive JsonVal where
  | jnull
  | jnum (q : ℚ)
  | jstr (s : String)
  | jarr (elems : List JsonVal)
  | jobj (label : Option JsonVal) (score : Option JsonVal)

/-- `analyzeSentiment(text)` (src/Task3/app.js lines 327–339), from the
pipeline's raw output onward (the preceding "model not initialized" throw
is a separate guard): a non-array or empty-array output throws
`"Invalid sentiment output from local model."`; otherwise the output is
wrapped as `[output]`. -/
def analyzeSentiment (output : JsonVal) : Except String JsonVal :=
  match output with
  | .jarr (e :: es) => .ok (.jarr [.jarr (e :: es)])
  | _ => .error "Invalid sentiment output from local model."

/-- `extractSentimentData(result)` (src/Task3/app.js lines 344–366):
defaults `("NEUTRAL", 0.5)` survive unless `result[0][0]` is an object with
a string `label` (upper-cased) resp. a numeric `score`.  An array at
`result[0][0]` passes the `typeof === "object"` check but has neither
field, so it keeps both defaults, like the other catch-alls. -/
def extractSentimentData (result : JsonVal) : String × ℚ :=
  match result with
  | .jarr (first :: _) =>
    match first with
    | .jarr (sentimentData :: _) =>
      match sentimentData with
      | .jobj label score =>
        ((match label with
          | some (.jstr s) => String.mk (s.toList.map Char.toUpper)
          | _ => "NEUTRAL"),
         (match score with
          | some (.jnum q) => q
          | _ => 0.5))
      | _ => ("NEUTRAL", 0.5)
    | _ => ("NEUTRAL", 0.5)
  | _ => ("NEUTRAL", 0.5)

/-- The analysis event's classification stage (src/Task3/app.js lines
300–306): `analyzeSentiment` followed, on success, by
`extractSentimentData`. -/
def analyzeThenExtract (output : JsonVal) : Except String (String × ℚ) :=
  (analyzeSentiment output).map extractSentimentData

end Task3

/-- C7 counterexample: the classifier response `[{}]` — a non-empty array
whose element is an object with neither a `label` nor a `score` — is a
malformed response shape, yet the engine reports success with the default
sentiment `NEUTRAL` at confidence `0.5` instead of propagating a
classification-failed error. -/
theorem classifier_malformed_shape_counterexample :
    Task3.analyzeThenExtract
      (Task3.JsonVal.jarr [Task3.JsonVal.jobj none none]) =
      Except.ok ("NEUTRAL", (0.5 : ℚ)) := rfl

/-- Helper: `extractSentimentData` keeps both defaults whenever the label
is not a string and the score is not a number. -/
theorem extractSentimentData_defaults (lab sc : Option Task3.JsonVal)
    (hl : ∀ s, lab ≠ some (Task3.JsonVal.jstr s))
    (hs : ∀ q, sc ≠ some (Task3.JsonVal.jnum q)) :
    Task3.extractSentimentData
      (Task3.JsonVal.jarr [Task3.JsonVal.jarr [Task3.JsonVal.jobj lab sc]]) =
      ("NEUTRAL", (0.5 : ℚ)) := by
  unfold Task3.extractSentimentData
  refine Prod.ext ?_ ?_
  · cases lab with
    | none => rfl
    | some v =>
      cases v with
      | jstr s => exact absurd rfl (hl s)
      | jnull => rfl
      | jnum q => rfl
      | jarr es => rfl
      | jobj a b => rfl
  · cases sc with
    | none => rfl
    | some w =>
      cases w with
      | jnum q => exact absurd rfl (hs q)
      | jnull => rfl
      | jstr s => rfl
      | jarr es => rfl
      | jobj a b => rfl

/-- C7 (amended): the engine raises the distinct error
`"Invalid sentiment output from local model."` when the classifier output
is not an array or is an empty array; but any non-empty array is accepted,
and when its first element lacks a string `label` or numeric `score`,
`extractSentimentData` silently substitutes the default sentiment
(`NEUTRAL`, confidence `0.5`) with no error — the analysis event proceeds
as if classification had succeeded. -/
theorem classifier_error_handling_amended :
    (∀ v : Task3.JsonVal, (∀ es, v ≠ Task3.JsonVal.jarr es) →
      Task3.analyzeSentiment v =
        Except.error "Invalid sentiment output from local model.") ∧
    (Task3.analyzeSentiment (Task3.JsonVal.jarr []) =
      Except.error "Invalid sentiment output from local model.") ∧
    (∀ e es, Task3.analyzeThenExtract (Task3.JsonVal.jarr (e :: es)) =
      Except.ok (Task3.extractSentimentData
        (Task3.JsonVal.jarr [Task3.JsonVal.jarr (e :: es)]))) ∧
    (∀ lab sc, (∀ s, lab ≠ some (Task3.JsonVal.jstr s)) →
      (∀ q, sc ≠ some (Task3.JsonVal.jnum q)) →
      Task3.analyzeThenExtract (Task3.JsonVal.jarr [Task3.JsonVal.jobj lab sc]) =
        Except.ok ("NEUTRAL", (0.5 : ℚ))) := by
  refine ⟨?_, rfl, fun e es => rfl, ?_⟩
  · intro v hv
    cases v with
    | jarr es => exact absurd rfl (hv es)
    | jnull => rfl
    | jnum q => rfl
    | jstr s => rfl
    | jobj a b => rfl
  · intro lab sc hl hs
    show Except.ok (Task3.extractSentimentData
      (Task3.JsonVal.jarr [Task3.JsonVal.jarr [Task3.JsonVal.jobj lab sc]])) =
      Except.ok ("NEUTRAL", (0.5 : ℚ))
    rw [extractSentimentData_defaults lab sc hl hs]

/-- Witness for the amended C7: a string response raises the distinct
error, and `[{label: 1}]` (numeric label, no score) silently becomes
`NEUTRAL`/`0.5`. -/
theorem classifier_error_handling_amended_witness :
    Task3.analyzeSentiment (Task3.JsonVal.jstr "oops") =
      Except.error "Invalid sentiment output from local model." ∧
    Task3.analyzeThenExtract
      (Task3.JsonVal.jarr
        [Task3.JsonVal.jobj (some (Task3.JsonVal.jnum 1)) none]) =
      Except.ok ("NEUTRAL", (0.5 : ℚ)) :=
  ⟨classifier_error_handling_amended.1 (Task3.JsonVal.jstr "oops")
    (fun es => by simp),
   classifier_error_handling_amended.2.2.2 (some (Task3.JsonVal.jnum 1)) none
    (fun s => by simp) (fun q => by simp)⟩
